import Mathlib

/-!
Verification of the RedditVisor client core against its specification.

This file gives a shallow embedding, in Lean 4, of the data model and the
operations of the RedditVisor Reddit-browser core:

* the Reddit API client (`RedditClient` in the frontend service module):
  OAuth token lifecycle (`getAccessToken`), the bounded retry fetch loop
  (`fetchRedditData`), URL-independent post normalization
  (`extractMediaInfo`, `getValidThumbnail`, `getYouTubeThumbnail`),
  configuration management (`addSubredditConfig`, `setNsfwSetting`) and the
  multi-feed orchestration (`fetchAllPosts`);
* the keyword query parser (`parseKeywordQuery`, `validateQuery`,
  `getQueryExamples` in `utils/queryParser.js`);
* the polling cache of the data hook (`loadFromCache`, `saveToCache` in
  `hooks/useRedditData.js`).

Conventions of the embedding:

* JavaScript values that may be `undefined`/`null` are `Option`s; JS string
  truthiness (`""` is falsy) is modelled explicitly where the source relies
  on it.
* Times are integers (milliseconds since the epoch), as produced by
  `Date.now()`.
* Network effects are modelled by passing the responses (an oracle from
  attempt number to outcome, or a single optional response body) as
  arguments; `localStorage` is a finite map from string keys to stored
  values, with JSON (de)serialization modelled as the identity round-trip.
* Code that can `throw` to its caller returns an `Except`; code whose
  exceptions are all caught internally returns a total value.
-/

namespace RedditVisor

/-- JS string truthiness of a possibly-absent string: `undefined`, `null`
and `""` are falsy. -/
def strTruthy : Option String → Bool
  | none => false
  | some s => !(s = "")

/-- Truthiness of a possibly-absent boolean field (e.g. `post.is_video`):
only a present `true` is truthy. -/
def boolTruthy : Option Bool → Bool
  | some b => b
  | none => false

/-! ## Raw Reddit post records

The heterogeneous `RawFeedItem` shape, restricted to the fields the client
reads.  Every field may be absent, mirroring arbitrary upstream data. -/

/-- The `media.oembed` / `secure_media.oembed` object. -/
structure OembedInfo where
  html : Option String := none
  width : Option Int := none
  height : Option Int := none
  provider_name : Option String := none
  provider_url : Option String := none
deriving DecidableEq

/-- The `media.reddit_video` / `secure_media.reddit_video` object. -/
structure RedditVideo where
  hls_url : Option String := none
  dash_url : Option String := none
  fallback_url : Option String := none
  is_gif : Option Bool := none
  width : Option Int := none
  height : Option Int := none
  duration : Option Int := none
  has_audio : Option Bool := none
deriving DecidableEq

/-- The `media` / `secure_media` object of a raw post. -/
structure MediaField where
  oembed : Option OembedInfo := none
  reddit_video : Option RedditVideo := none
deriving DecidableEq

/-- The `secure_media_embed` object of a raw post. -/
structure MediaEmbedField where
  html : Option String := none
  width : Option Int := none
  height : Option Int := none
deriving DecidableEq

/-- A `preview.images[i].source` object. -/
structure PreviewSource where
  url : Option String := none
  width : Option Int := none
deriving DecidableEq

/-- A `preview.images[i].resolutions[j]` object. -/
structure PreviewResolution where
  url : Option String := none
  width : Option Int := none
deriving DecidableEq

/-- A `preview.images[i]` object. -/
structure PreviewImage where
  source : Option PreviewSource := none
  resolutions : List PreviewResolution := []
deriving DecidableEq

/-- The `preview` object of a raw post. -/
structure PreviewField where
  images : List PreviewImage := []
deriving DecidableEq

/-- The `gallery_data` payload is carried through opaquely by the client. -/
abbrev GalleryDataField := String

/-- The `media_metadata` payload is carried through opaquely by the client. -/
abbrev MediaMetadataField := String

/-- A raw Reddit post record (the `data` of a listing child), restricted to
the fields `extractMediaInfo`, `getValidThumbnail` and `processPost` read. -/
structure RawPost where
  media : Option MediaField := none
  secure_media : Option MediaField := none
  secure_media_embed : Option MediaEmbedField := none
  is_gallery : Option Bool := none
  gallery_data : Option GalleryDataField := none
  media_metadata : Option MediaMetadataField := none
  is_video : Option Bool := none
  url : Option String := none
  thumbnail : Option String := none
  preview : Option PreviewField := none
deriving DecidableEq

/-! ## C1: `fetchRedditData` retry loop

`fetchRedditData(url, maxRetries = 3)` loops `attempt = 0 .. maxRetries-1`.
Each attempt performs a fetch whose outcome we model as an oracle from the
attempt number.  Inside the loop:

* HTTP 429: wait, `continue` (consuming the attempt);
* `response.ok` (status 200..299): parse JSON and return
  `data?.data?.children || []` (a parse failure throws into the catch);
* any other status throws `HTTP <status>`, any network/timeout error
  throws; the catch-all either returns `[]` (when `attempt ===
  maxRetries - 1`) or backs off and retries.

After the loop falls through, the function returns `[]`.  Every exception
path is caught inside the loop, so the embedding is a total function
returning the number of attempts made together with the resulting list;
the real-time waits, the Authorization header and the 401 token-clearing
(which affect no observable of this claim) are not modelled. -/

/-- Outcome of one fetch attempt: an HTTP response (with status, optional
`retry-after` header and, for the body, `none` when `response.json()`
throws, or the optional `data.data.children` list), or a network/timeout
failure thrown by `fetch`. -/
inductive AttemptOutcome where
  | httpResponse (status : Nat) (retryAfter : Option Nat)
      (jsonChildren : Option (Option (List RawPost)))
  | networkFailure
deriving DecidableEq

/-- The retry loop of `fetchRedditData`, structurally recursing on the
remaining fuel (`fuel = maxRetries - attempt`).  Returns the number of
attempts made and the list returned to the caller. -/
def fetchLoop (oracle : Nat → AttemptOutcome) : Nat → Nat → Nat × List RawPost
  | attempt, 0 => (attempt, [])
  | attempt, fuel + 1 =>
    match oracle attempt with
    | .httpResponse status _retryAfter jsonChildren =>
      if status = 429 then
        -- rate limited: wait and retry, consuming this attempt
        fetchLoop oracle (attempt + 1) fuel
      else if 200 ≤ status ∧ status < 300 then
        match jsonChildren with
        | some children => (attempt + 1, children.getD [])
        | none =>
          -- response.json() threw; caught by the catch-all below
          if fuel = 0 then (attempt + 1, []) else fetchLoop oracle (attempt + 1) fuel
      else
        -- non-ok status throws `HTTP <status>`; caught by the catch-all
        if fuel = 0 then (attempt + 1, []) else fetchLoop oracle (attempt + 1) fuel
    | .networkFailure =>
      if fuel = 0 then (attempt + 1, []) else fetchLoop oracle (attempt + 1) fuel

/-- `fetchRedditData` with its default bound of 3 attempts. -/
def fetchRedditData (oracle : Nat → AttemptOutcome) (maxRetries : Nat := 3) :
    Nat × List RawPost :=
  fetchLoop oracle 0 maxRetries

/-- Whether an attempt outcome is an HTTP response with a non-2xx status
(a network failure is not an HTTP response). -/
def isNon2xxHttp : AttemptOutcome → Bool
  | .httpResponse status _ _ => if 200 ≤ status ∧ status < 300 then false else true
  | .networkFailure => false

theorem fetchLoop_non2xx_step (oracle : Nat → AttemptOutcome) (attempt fuel : Nat)
    (h : isNon2xxHttp (oracle attempt) = true) :
    fetchLoop oracle attempt (fuel + 1) = fetchLoop oracle (attempt + 1) fuel := by
  cases ho : oracle attempt with
  | networkFailure =>
    rw [ho] at h
    simp [isNon2xxHttp] at h
  | httpResponse s ra j =>
    rw [ho] at h
    simp only [isNon2xxHttp] at h
    have h2xx : ¬ (200 ≤ s ∧ s < 300) := by
      by_contra hc
      rw [if_pos hc] at h
      exact Bool.false_ne_true h
    by_cases h429 : s = 429
    · simp [fetchLoop, ho, h429]
    · simp only [fetchLoop, ho, if_neg h429, if_neg h2xx]
      cases fuel with
      | zero => simp [fetchLoop]
      | succ f => simp

/-- C1: for every request whose attempts all receive a non-2xx HTTP
response (e.g. HTTP 500 on all attempts), `fetchRedditData` makes exactly
3 attempts and then returns an empty array; every exception is caught
inside the loop, so nothing is thrown to the caller (the embedding is a
total function). -/
theorem fetchRedditData_retry_bound (oracle : Nat → AttemptOutcome)
    (h : ∀ i, i < 3 → isNon2xxHttp (oracle i) = true) :
    fetchRedditData oracle = (3, []) := by
  have s0 := fetchLoop_non2xx_step oracle 0 2 (h 0 (by omega))
  have s1 := fetchLoop_non2xx_step oracle 1 1 (h 1 (by omega))
  have s2 := fetchLoop_non2xx_step oracle 2 0 (h 2 (by omega))
  unfold fetchRedditData
  rw [s0, s1, s2]
  rfl

/-- Witness for C1: an oracle answering HTTP 500 on every attempt. -/
theorem fetchRedditData_retry_bound_witness :
    fetchRedditData (fun _ => AttemptOutcome.httpResponse 500 none none) = (3, []) :=
  fetchRedditData_retry_bound _ (by decide)

/-! ## C3: `getAccessToken` expiry margin

`getAccessToken` returns the cached token when
`this.accessToken && this.tokenExpiry && Date.now() < this.tokenExpiry`
(the valid-token fast path); otherwise it requests a token and on success
stores `tokenExpiry = Date.now() + data.expires_in * 1000 - 60000`
("Refresh 1 minute early").  On any failure it returns `null` and leaves
the stored token fields unchanged.  The single-flight `isRefreshing` wait
loop is concurrency plumbing with no effect on the recorded expiry and is
not modelled. -/

/-- The token fields of the client. -/
structure TokenState where
  accessToken : Option String := none
  tokenExpiry : Option Int := none
deriving DecidableEq

/-- The valid-token fast-path test
`this.accessToken && this.tokenExpiry && Date.now() < this.tokenExpiry`,
with JS truthiness of the two fields made explicit (`""` and `0` are
falsy). -/
def hasValidToken (st : TokenState) (now : Int) : Bool :=
  match st.accessToken, st.tokenExpiry with
  | some tok, some expiry =>
    if tok = "" then false
    else if expiry = 0 then false
    else decide (now < expiry)
  | _, _ => false

/-- A successful token-endpoint response body (no `error` field). -/
structure TokenResponseBody where
  access_token : String := ""
  expires_in : Int := 0
deriving DecidableEq

/-- Store a freshly acquired token with its safety-margin expiry. -/
def recordNewToken (st : TokenState) (now : Int) (body : TokenResponseBody) : TokenState :=
  { st with
    accessToken := some body.access_token
    tokenExpiry := some (now + body.expires_in * 1000 - 60000) }

/-- One call of `getAccessToken` at time `now`; `resp` is the successful
response body, or `none` for any failure (non-ok response, `error` field
in the body, or network error), which falls back to no authentication. -/
def getAccessToken (st : TokenState) (now : Int) (resp : Option TokenResponseBody) :
    Option String × TokenState :=
  if hasValidToken st now then (st.accessToken, st)
  else
    match resp with
    | some body =>
      let st' := recordNewToken st now body
      (st'.accessToken, st')
    | none => (none, st)

/-- C3: a successful token acquisition at time `T` with `expires_in = E`
records the expiry as `T + E*1000 - 60000` milliseconds (i.e. `T + E - 60`
seconds); in particular a token with `expires_in = 120` acquired at `T` is
rejected by the valid-token fast path at every time `≥ T + 60000` (not
`T + 120000`), and accepted at every time in `[T, T + 60000)`. -/
theorem getAccessToken_expiry_margin (st : TokenState) (T : Int) (tok : String) (E : Int)
    (hfresh : hasValidToken st T = false) :
    ((getAccessToken st T (some { access_token := tok, expires_in := E })).2.tokenExpiry
        = some (T + E * 1000 - 60000))
    ∧ (E = 120 → tok ≠ "" → 0 < T →
        (∀ t : Int, T + 60000 ≤ t →
          hasValidToken (getAccessToken st T
            (some { access_token := tok, expires_in := E })).2 t = false)
        ∧ (∀ t : Int, T ≤ t → t < T + 60000 →
          hasValidToken (getAccessToken st T
            (some { access_token := tok, expires_in := E })).2 t = true)) := by
  have hred : (getAccessToken st T (some { access_token := tok, expires_in := E })).2
      = { accessToken := some tok, tokenExpiry := some (T + E * 1000 - 60000) } := by
    simp [getAccessToken, hfresh, recordNewToken]
  constructor
  · rw [hred]
  · intro hE htok hT
    subst hE
    rw [hred]
    have hexp : T + 120 * 1000 - 60000 = T + 60000 := by omega
    rw [hexp]
    have hz : ¬ (T + 60000 = 0) := by omega
    constructor
    · intro t ht
      simp only [hasValidToken]
      rw [if_neg htok, if_neg hz]
      simp only [decide_eq_false_iff_not]
      omega
    · intro t ht1 ht2
      simp only [hasValidToken]
      rw [if_neg htok, if_neg hz]
      simp only [decide_eq_true_eq]
      omega

/-- Witness for C3: a fresh client acquiring a 120-second token at a
concrete time `T`; the token is rejected at `T + 60000` and accepted at
`T + 59999`. -/
theorem getAccessToken_expiry_margin_witness :
    hasValidToken (getAccessToken {} 1700000000000
        (some { access_token := "token123", expires_in := 120 })).2 1700000060000 = false
    ∧ hasValidToken (getAccessToken {} 1700000000000
        (some { access_token := "token123", expires_in := 120 })).2 1700000059999 = true := by
  have h := (getAccessToken_expiry_margin {} 1700000000000 "token123" 120 (by decide)).2
    rfl (by decide) (by decide)
  exact ⟨h.1 1700000060000 (by decide), h.2 1700000059999 (by decide) (by decide)⟩

/-! ## Posts and local storage -/

/-- The normalized client-facing post record produced by `processPost`,
restricted to the identity and recency fields the orchestration layer
reads; the remaining presentation fields do not influence deduplication or
sorting. -/
structure Post where
  id : String
  title : String := ""
  author : String := ""
  subreddit : String := ""
  createdUtc : Int := 0
  ups : Int := 0
deriving DecidableEq

/-- A value held in local storage.  JSON (de)serialization
(`JSON.stringify`/`JSON.parse`, `toString`/`parseInt`) is modelled as the
identity round-trip by distinguishing the stored shapes. -/
inductive StoreVal where
  | strVal (s : String)
  | natVal (n : Nat)
  | postsVal (posts : List Post)
deriving DecidableEq

/-- Local storage: a synchronous map from string keys to stored values. -/
abbrev Storage := String → Option StoreVal

/-- `localStorage.setItem`. -/
def setItem (st : Storage) (key : String) (v : StoreVal) : Storage :=
  fun k => if k = key then some v else st k

/-- `localStorage.removeItem`. -/
def removeItem (st : Storage) (key : String) : Storage :=
  fun k => if k = key then none else st k

/-! ## C2: `fetchAllPosts` deduplication

`fetchAllPosts` builds a URL per configuration, fetches it, maps the raw
items through `processPost`, flattens all per-config results into one
list, removes duplicates by post ID keeping the first occurrence (a `Set`
of seen IDs plus a push loop), and finally sorts by `createdUtc`
descending (`Array.prototype.sort` is stable; we model it by the stable
`List.mergeSort`).  The network and normalization stages are parameterized
by the per-config processed post lists, which is exactly the input the
claim quantifies over. -/

/-- The dedup loop of `fetchAllPosts`: iterate in result order, keep the
first occurrence of each post ID (`seen` holds the IDs already kept). -/
def dedupeGo (seen : List String) : List Post → List Post
  | [] => []
  | p :: rest =>
    if p.id ∈ seen then dedupeGo seen rest
    else p :: dedupeGo (p.id :: seen) rest

/-- Remove duplicates by post ID, keeping the first occurrence. -/
def dedupePosts (allResults : List Post) : List Post := dedupeGo [] allResults

/-- `fetchAllPosts` downstream of the per-config fetches: flatten,
deduplicate by ID, sort by creation time (newest first). -/
def fetchAllPostsPure (configResults : List (List Post)) : List Post :=
  (dedupePosts configResults.flatten).mergeSort
    (fun a b => decide (b.createdUtc ≤ a.createdUtc))

theorem mem_dedupeGo_ids {l : List Post} :
    ∀ {seen : List String} {i : String},
      i ∈ (dedupeGo seen l).map Post.id ↔ (i ∈ l.map Post.id ∧ i ∉ seen) := by
  induction l with
  | nil => intro seen i; simp [dedupeGo]
  | cons p rest ih =>
    intro seen i
    by_cases hp : p.id ∈ seen
    · rw [dedupeGo, if_pos hp]
      rw [ih]
      simp only [List.map_cons, List.mem_cons]
      constructor
      · rintro ⟨h1, h2⟩; exact ⟨Or.inr h1, h2⟩
      · rintro ⟨h1 | h1, h2⟩
        · exact absurd (h1 ▸ hp) h2
        · exact ⟨h1, h2⟩
    · rw [dedupeGo, if_neg hp]
      simp only [List.map_cons, List.mem_cons, ih]
      constructor
      · rintro (h | ⟨h1, h2⟩)
        · exact ⟨Or.inl h, h ▸ hp⟩
        · exact ⟨Or.inr h1, fun hs => h2 (Or.inr hs)⟩
      · rintro ⟨h1 | h1, h2⟩
        · exact Or.inl h1
        · by_cases hip : i = p.id
          · exact Or.inl hip
          · exact Or.inr ⟨h1, fun hor => hor.elim hip h2⟩

theorem dedupeGo_ids_nodup (l : List Post) :
    ∀ seen : List String, ((dedupeGo seen l).map Post.id).Nodup := by
  induction l with
  | nil => intro seen; simp [dedupeGo]
  | cons p rest ih =>
    intro seen
    by_cases hp : p.id ∈ seen
    · rw [dedupeGo, if_pos hp]; exact ih seen
    · rw [dedupeGo, if_neg hp]
      simp only [List.map_cons, List.nodup_cons]
      refine ⟨fun hmem => ?_, ih _⟩
      have := mem_dedupeGo_ids.mp hmem
      exact this.2 (List.mem_cons_self _ _)

theorem dedupeGo_first_occurrence {l : List Post} :
    ∀ {seen : List String} {p : Post}, p ∈ dedupeGo seen l →
      p.id ∉ seen ∧ l.find? (fun q => q.id == p.id) = some p := by
  induction l with
  | nil => intro seen p h; simp [dedupeGo] at h
  | cons q rest ih =>
    intro seen p h
    by_cases hq : q.id ∈ seen
    · rw [dedupeGo, if_pos hq] at h
      obtain ⟨hns, hfind⟩ := ih h
      have hne : ¬ ((fun q' : Post => q'.id == p.id) q) = true := by
        simp only [beq_iff_eq]
        intro he
        exact hns (he ▸ hq)
      exact ⟨hns, (List.find?_cons_of_neg rest hne).trans hfind⟩
    · rw [dedupeGo, if_neg hq] at h
      rcases List.mem_cons.mp h with rfl | h
      · exact ⟨hq, List.find?_cons_of_pos rest (by simp)⟩
      · obtain ⟨hns, hfind⟩ := ih h
        have hpq : p.id ≠ q.id := fun he => hns (by simp [he])
        have hns' : p.id ∉ seen := fun hs => hns (List.mem_cons_of_mem _ hs)
        have hne : ¬ ((fun q' : Post => q'.id == p.id) q) = true := by
          simp only [beq_iff_eq]
          exact fun he => hpq he.symm
        exact ⟨hns', (List.find?_cons_of_neg rest hne).trans hfind⟩

/-- C2: for every list of per-config fetch results, the output of
`fetchAllPosts` contains each post ID exactly once (the projection to IDs
has no duplicates, and an ID appears in the output iff it appears in the
flattened input), and the record kept for each ID is the first occurrence
in the flattened result order. -/
theorem fetchAllPosts_dedup_invariant (configResults : List (List Post)) :
    ((fetchAllPostsPure configResults).map Post.id).Nodup
    ∧ (∀ i, i ∈ configResults.flatten.map Post.id
        ↔ i ∈ (fetchAllPostsPure configResults).map Post.id)
    ∧ (∀ p, p ∈ fetchAllPostsPure configResults →
        configResults.flatten.find? (fun q => q.id == p.id) = some p) := by
  have hperm : List.Perm (fetchAllPostsPure configResults)
      (dedupePosts configResults.flatten) :=
    List.mergeSort_perm _ _
  refine ⟨?_, ?_, ?_⟩
  · exact ((hperm.map Post.id).symm).nodup (dedupeGo_ids_nodup _ [])
  · intro i
    rw [(hperm.map Post.id).mem_iff]
    unfold dedupePosts
    rw [mem_dedupeGo_ids]
    simp
  · intro p hp
    have hd : p ∈ dedupePosts configResults.flatten := hperm.mem_iff.mp hp
    exact (dedupeGo_first_occurrence hd).2

/-- Witness for C2: two feeds sharing the post ID `t3_a` with different
payloads; the record kept is the first occurrence in flattened order. -/
theorem fetchAllPosts_dedup_invariant_witness :
    ([[{ id := "t3_a", title := "first", createdUtc := 5 }, { id := "t3_b", createdUtc := 9 }],
      [{ id := "t3_a", title := "dup", createdUtc := 5 }]] : List (List Post)).flatten.find?
        (fun q => q.id == ({ id := "t3_a", title := "first", createdUtc := 5 } : Post).id)
      = some { id := "t3_a", title := "first", createdUtc := 5 } :=
  (fetchAllPosts_dedup_invariant
      [[{ id := "t3_a", title := "first", createdUtc := 5 }, { id := "t3_b", createdUtc := 9 }],
       [{ id := "t3_a", title := "dup", createdUtc := 5 }]]).2.2 _ (by
    simp only [fetchAllPostsPure, List.mem_mergeSort]
    decide)

/-! ## C10: `setNsfwSetting`

`setNsfwSetting(setting)` throws unless the argument is exactly `'sfw'` or
`'nsfw'`; the throw happens before any mutation, so an invalid call leaves
both the in-memory setting and the persisted storage key unchanged (the
`Except.error` result carries no new state and the caller keeps the old
one).  A valid call updates `this.nsfwSetting` and persists it under
`redditvisor_nsfw_setting` via `saveNsfwSetting`. -/

/-- The NSFW-relevant slice of the client state. -/
structure ClientNsfwState where
  nsfwSetting : String := "sfw"
  storage : Storage := fun _ => none

/-- `saveNsfwSetting`: persist the current setting (storage errors are
caught and only logged, so the write is modelled as total). -/
def saveNsfwSetting (st : ClientNsfwState) : ClientNsfwState :=
  { st with
    storage := setItem st.storage "redditvisor_nsfw_setting" (.strVal st.nsfwSetting) }

/-- `setNsfwSetting`: validate, then update and persist. -/
def setNsfwSetting (st : ClientNsfwState) (setting : String) :
    Except String ClientNsfwState :=
  if setting ≠ "sfw" ∧ setting ≠ "nsfw" then
    .error "NSFW setting must be either \"sfw\" or \"nsfw\""
  else
    .ok (saveNsfwSetting { st with nsfwSetting := setting })

/-- C10: for every argument other than `'sfw'`/`'nsfw'`, `setNsfwSetting`
throws (returning an error and no new state, so both the in-memory setting
and the persisted storage stay as they were); for `'sfw'`/`'nsfw'` it
returns a state with the setting updated and persisted. -/
theorem setNsfwSetting_validation (st : ClientNsfwState) (setting : String) :
    (setting ≠ "sfw" ∧ setting ≠ "nsfw" →
      setNsfwSetting st setting
        = .error "NSFW setting must be either \"sfw\" or \"nsfw\"")
    ∧ ((setting = "sfw" ∨ setting = "nsfw") →
        ∃ st', setNsfwSetting st setting = .ok st'
          ∧ st'.nsfwSetting = setting
          ∧ st'.storage "redditvisor_nsfw_setting" = some (.strVal setting)) := by
  constructor
  · intro h
    simp [setNsfwSetting, h]
  · intro h
    have hne : ¬ (setting ≠ "sfw" ∧ setting ≠ "nsfw") := by
      rcases h with h | h <;> simp [h]
    refine ⟨saveNsfwSetting { st with nsfwSetting := setting }, ?_, ?_, ?_⟩
    · simp [setNsfwSetting, hne]
    · simp [saveNsfwSetting]
    · simp [saveNsfwSetting, setItem]

/-- Witness for C10: an invalid argument `"xyz"` errors; the valid
argument `"nsfw"` updates and persists. -/
theorem setNsfwSetting_validation_witness :
    setNsfwSetting {} "xyz" = .error "NSFW setting must be either \"sfw\" or \"nsfw\""
    ∧ ∃ st', setNsfwSetting {} "nsfw" = .ok st'
        ∧ st'.nsfwSetting = "nsfw"
        ∧ st'.storage "redditvisor_nsfw_setting" = some (.strVal "nsfw") :=
  ⟨(setNsfwSetting_validation {} "xyz").1 (by decide),
   (setNsfwSetting_validation {} "nsfw").2 (Or.inr rfl)⟩

/-! ## C7: post cache TTL

`saveToCache(posts)` writes `JSON.stringify(posts)` under
`redditvisor_posts_cache` and `(Date.now() + CACHE_DURATION).toString()`
under `redditvisor_cache_expiry` (the quota-exceeded retry performs the
same two writes and is therefore observationally identical).
`loadFromCache()` reads both keys; when both are present and
`Date.now() < parseInt(expiry)` it returns the parsed posts, otherwise it
removes both keys and returns `null`.  Serialization is modelled by the
`StoreVal` constructors; an unparsable expiry string (`parseInt` yields
`NaN`, and `now < NaN` is false) takes the expired path, and a cache value
that fails to parse as posts takes the catch path — both purge and miss,
and neither is reachable from `saveToCache`. -/

/-- Cache key for the serialized posts. -/
def CACHE_KEY : String := "redditvisor_posts_cache"

/-- Cache key for the expiry timestamp. -/
def CACHE_EXPIRY_KEY : String := "redditvisor_cache_expiry"

/-- Cache TTL: 5 minutes in milliseconds. -/
def CACHE_DURATION : Nat := 5 * 60 * 1000

/-- `saveToCache`: persist the posts and a fresh expiry stamp. -/
def saveToCache (store : Storage) (now : Nat) (posts : List Post) : Storage :=
  setItem (setItem store CACHE_KEY (.postsVal posts))
    CACHE_EXPIRY_KEY (.natVal (now + CACHE_DURATION))

/-- Remove both cache keys. -/
def purgeCache (store : Storage) : Storage :=
  removeItem (removeItem store CACHE_KEY) CACHE_EXPIRY_KEY

/-- `loadFromCache`: a hit returns the cached posts and leaves storage
unchanged; expiry (or malformed data) purges both keys and misses. -/
def loadFromCache (store : Storage) (now : Nat) : Option (List Post) × Storage :=
  match store CACHE_KEY, store CACHE_EXPIRY_KEY with
  | some cached, some (.natVal expiryTime) =>
    if now < expiryTime then
      match cached with
      | .postsVal posts => (some posts, store)
      | _ => (none, purgeCache store)
    else (none, purgeCache store)
  | some _, some _ => (none, purgeCache store)
  | _, _ => (none, store)

/-- C7: a cache written at time `T` is a hit (returning exactly the cached
posts, storage untouched) at every time strictly before `T + 5` minutes,
and a miss at every time from `T + 5` minutes on, the miss removing both
the cache entry and its expiry key from storage. -/
theorem cache_ttl_hit_miss (store : Storage) (posts : List Post) (T t : Nat) :
    (t < T + CACHE_DURATION →
      loadFromCache (saveToCache store T posts) t
        = (some posts, saveToCache store T posts))
    ∧ (T + CACHE_DURATION ≤ t →
      (loadFromCache (saveToCache store T posts) t).1 = none
      ∧ (loadFromCache (saveToCache store T posts) t).2 CACHE_KEY = none
      ∧ (loadFromCache (saveToCache store T posts) t).2 CACHE_EXPIRY_KEY = none) := by
  have hkey : saveToCache store T posts CACHE_KEY = some (.postsVal posts) := by
    simp [saveToCache, setItem, CACHE_KEY, CACHE_EXPIRY_KEY]
  have hexp : saveToCache store T posts CACHE_EXPIRY_KEY
      = some (.natVal (T + CACHE_DURATION)) := by
    simp [saveToCache, setItem]
  have hpurge1 : purgeCache (saveToCache store T posts) CACHE_KEY = none := by
    simp [purgeCache, removeItem, CACHE_KEY, CACHE_EXPIRY_KEY]
  have hpurge2 : purgeCache (saveToCache store T posts) CACHE_EXPIRY_KEY = none := by
    simp [purgeCache, removeItem]
  constructor
  · intro ht
    simp [loadFromCache, hkey, hexp, ht]
  · intro ht
    have hlt : ¬ (t < T + CACHE_DURATION) := by omega
    simp [loadFromCache, hkey, hexp, hlt, hpurge1, hpurge2]

/-- Witness for C7: a cache written at `T = 0` hits at `t = 299999` and
misses at `t = 300000`. -/
theorem cache_ttl_hit_miss_witness :
    loadFromCache (saveToCache (fun _ => none) 0 [{ id := "t3_a" }]) 299999
      = (some [{ id := "t3_a" }], saveToCache (fun _ => none) 0 [{ id := "t3_a" }])
    ∧ (loadFromCache (saveToCache (fun _ => none) 0 [{ id := "t3_a" }]) 300000).1 = none :=
  ⟨(cache_ttl_hit_miss (fun _ => none) [{ id := "t3_a" }] 0 299999).1 (by decide),
   ((cache_ttl_hit_miss (fun _ => none) [{ id := "t3_a" }] 0 300000).2 (by decide)).1⟩

/-! ## C9: configuration ID generation

`addSubredditConfig(subreddit, sortType, timeframe, keywords)` generates
the id with the template
`` `${subreddit}_${sortType}_${timeframe || 'none'}_${keywords ? 'search' : 'feed'}_${Date.now()}` ``
and pushes the new configuration.  The only varying component between two
calls with identical arguments is the `Date.now()` timestamp, so two such
calls inside the same millisecond generate the same id.  The decimal
rendering of the timestamp is modelled by a fuel-bounded division loop
(fuel 20 covers every JS-representable integer, since JS timestamps are
below `2^53 < 10^16`). -/

/-- Decimal digit character. -/
def natDigitChar (d : Nat) : Char := Char.ofNat (48 + d)

/-- Big-endian decimal digits of `n`, bounded by `fuel`. -/
def natReprGo : Nat → Nat → List Char
  | 0, _ => []
  | fuel + 1, n =>
    if n = 0 then []
    else natReprGo fuel (n / 10) ++ [natDigitChar (n % 10)]

/-- Digit-count bound of the decimal rendering. -/
def reprFuel : Nat := 20

/-- Decimal representation of a natural number, as produced by JS number
to-string conversion for integers below `10 ^ reprFuel`. -/
def natReprChars (n : Nat) : List Char :=
  if n = 0 then ['0'] else natReprGo reprFuel n

/-- Decimal representation as a string. -/
def natRepr (n : Nat) : String := String.mk (natReprChars n)

/-- A feed configuration entry. -/
structure SubredditConfig where
  id : String
  subreddit : String
  sortType : String := "hot"
  timeframe : Option String := none
  keywords : Option String := none
deriving DecidableEq

/-- The `timeframe || 'none'` template component (JS falsiness: absent or
empty string gives `'none'`). -/
def timeframePart (timeframe : Option String) : String :=
  match timeframe with
  | some tf => if tf = "" then "none" else tf
  | none => "none"

/-- The `keywords ? 'search' : 'feed'` template component. -/
def keywordsPart (keywords : Option String) : String :=
  match keywords with
  | some k => if k = "" then "feed" else "search"
  | none => "feed"

/-- The generated configuration id. -/
def genConfigId (subreddit sortType : String) (timeframe keywords : Option String)
    (now : Nat) : String :=
  subreddit ++ "_" ++ sortType ++ "_" ++ timeframePart timeframe ++ "_"
    ++ keywordsPart keywords ++ "_" ++ natRepr now

/-- `addSubredditConfig` at time `now`: generate an id, push the new
configuration, return the id and the updated list (the synchronous
persistence writes the same list and is omitted). -/
def addSubredditConfig (configs : List SubredditConfig)
    (subreddit sortType : String) (timeframe keywords : Option String)
    (now : Nat) : String × List SubredditConfig :=
  let id := genConfigId subreddit sortType timeframe keywords now
  (id, configs ++ [{ id := id, subreddit := subreddit, sortType := sortType,
                     timeframe := timeframe, keywords := keywords }])

theorem natDigitChar_inj : ∀ d1, d1 < 10 → ∀ d2, d2 < 10 →
    natDigitChar d1 = natDigitChar d2 → d1 = d2 := by decide

theorem natReprGo_mem_digit :
    ∀ fuel n c, c ∈ natReprGo fuel n → ∃ d, d < 10 ∧ c = natDigitChar d := by
  intro fuel
  induction fuel with
  | zero => intro n c hc; simp [natReprGo] at hc
  | succ f ih =>
    intro n c hc
    rw [natReprGo] at hc
    by_cases hn : n = 0
    · rw [if_pos hn] at hc; simp at hc
    · rw [if_neg hn] at hc
      rcases List.mem_append.mp hc with h | h
      · exact ih _ _ h
      · have : c = natDigitChar (n % 10) := by simpa using h
        exact ⟨n % 10, Nat.mod_lt _ (by norm_num), this⟩

theorem underscore_not_mem_natReprChars (n : Nat) : '_' ∉ natReprChars n := by
  unfold natReprChars
  by_cases hn : n = 0
  · rw [if_pos hn]; decide
  · rw [if_neg hn]
    intro hmem
    obtain ⟨d, hd, hc⟩ := natReprGo_mem_digit _ _ _ hmem
    revert hc
    revert hd
    revert d
    decide

theorem natReprGo_eq_nil : ∀ fuel n, n < 10 ^ fuel → natReprGo fuel n = [] → n = 0 := by
  intro fuel
  cases fuel with
  | zero => intro n hn _; omega
  | succ f =>
    intro n hn h
    by_cases h0 : n = 0
    · exact h0
    · rw [natReprGo, if_neg h0] at h
      simp at h

theorem natReprGo_inj : ∀ fuel, ∀ n m, n < 10 ^ fuel → m < 10 ^ fuel →
    natReprGo fuel n = natReprGo fuel m → n = m := by
  intro fuel
  induction fuel with
  | zero => intro n m hn hm _; omega
  | succ f ih =>
    intro n m hn hm h
    have hz : natReprGo (f + 1) 0 = [] := by rw [natReprGo]; simp
    by_cases h0 : n = 0
    · subst h0
      rw [hz] at h
      exact (natReprGo_eq_nil _ _ hm h.symm).symm
    · by_cases h1 : m = 0
      · subst h1
        rw [hz] at h
        exact absurd (natReprGo_eq_nil _ _ hn h) h0
      · rw [natReprGo, if_neg h0, natReprGo, if_neg h1] at h
        have hrev := congrArg List.reverse h
        simp only [List.reverse_append, List.reverse_cons, List.reverse_nil,
          List.nil_append, List.singleton_append, List.cons.injEq] at hrev
        obtain ⟨hdig, htail⟩ := hrev
        have hdiv : n / 10 = m / 10 := by
          have hb1 : n / 10 < 10 ^ f := by
            rw [Nat.div_lt_iff_lt_mul (by norm_num)]
            calc n < 10 ^ (f + 1) := hn
            _ = 10 ^ f * 10 := by ring
          have hb2 : m / 10 < 10 ^ f := by
            rw [Nat.div_lt_iff_lt_mul (by norm_num)]
            calc m < 10 ^ (f + 1) := hm
            _ = 10 ^ f * 10 := by ring
          exact ih _ _ hb1 hb2 (List.reverse_injective htail)
        have hmod : n % 10 = m % 10 :=
          natDigitChar_inj _ (Nat.mod_lt _ (by norm_num)) _ (Nat.mod_lt _ (by norm_num)) hdig
        omega

theorem natReprGo_ne_zero_str :
    ∀ fuel n, n < 10 ^ fuel → n ≠ 0 → natReprGo fuel n ≠ ['0'] := by
  intro fuel
  cases fuel with
  | zero => intro n hn h0; omega
  | succ f =>
    intro n hn h0 hcontra
    rw [natReprGo, if_neg h0] at hcontra
    have hlen := congrArg List.length hcontra
    simp only [List.length_append, List.length_cons, List.length_nil] at hlen
    have hnil : natReprGo f (n / 10) = [] := List.length_eq_zero.mp (by omega)
    rw [hnil, List.nil_append] at hcontra
    have hdig : natDigitChar (n % 10) = '0' := by
      simpa using hcontra
    have hdivlt : n / 10 < 10 ^ f := by
      rw [Nat.div_lt_iff_lt_mul (by norm_num)]
      calc n < 10 ^ (f + 1) := hn
      _ = 10 ^ f * 10 := by ring
    have hdiv0 : n / 10 = 0 := natReprGo_eq_nil _ _ hdivlt hnil
    have hmod0 : n % 10 = 0 :=
      natDigitChar_inj _ (Nat.mod_lt _ (by norm_num)) _ (by norm_num)
        (hdig.trans (by rfl))
    omega

theorem natReprChars_inj (n m : Nat) (hn : n < 10 ^ reprFuel) (hm : m < 10 ^ reprFuel)
    (h : natReprChars n = natReprChars m) : n = m := by
  unfold natReprChars at h
  by_cases h0 : n = 0 <;> by_cases h1 : m = 0
  · rw [h0, h1]
  · rw [if_pos h0, if_neg h1] at h
    exact absurd h.symm (natReprGo_ne_zero_str _ _ hm h1)
  · rw [if_neg h0, if_pos h1] at h
    exact absurd h (natReprGo_ne_zero_str _ _ hn h0)
  · rw [if_neg h0, if_neg h1] at h
    exact natReprGo_inj _ _ _ hn hm h

theorem takeWhile_until_underscore :
    ∀ (xs ys : List Char), '_' ∉ xs →
      (xs ++ '_' :: ys).takeWhile (fun c => c != '_') = xs := by
  intro xs
  induction xs with
  | nil => intro ys _; simp [List.takeWhile]
  | cons x xs ih =>
    intro ys hx
    have hxu : x ≠ '_' := fun he => hx (he ▸ List.mem_cons_self _ _)
    have hxs : '_' ∉ xs := fun hs => hx (List.mem_cons_of_mem _ hs)
    simp only [List.cons_append, List.takeWhile]
    have : (x != '_') = true := by simpa using hxu
    rw [this]
    simp [ih ys hxs]

theorem last_segment_eq (a b r1 r2 : List Char) (h1 : '_' ∉ r1) (h2 : '_' ∉ r2)
    (h : a ++ '_' :: r1 = b ++ '_' :: r2) : r1 = r2 := by
  have hrev := congrArg List.reverse h
  simp only [List.reverse_append, List.reverse_cons, List.append_assoc,
    List.singleton_append] at hrev
  have h1' : '_' ∉ r1.reverse := by simpa using h1
  have h2' : '_' ∉ r2.reverse := by simpa using h2
  have t1 := takeWhile_until_underscore r1.reverse a.reverse h1'
  have t2 := takeWhile_until_underscore r2.reverse b.reverse h2'
  have : r1.reverse = r2.reverse := by rw [← t1, ← t2, hrev]
  exact List.reverse_injective this

theorem genConfigId_data (subreddit sortType : String)
    (timeframe keywords : Option String) (now : Nat) :
    (genConfigId subreddit sortType timeframe keywords now).data
      = (subreddit ++ "_" ++ sortType ++ "_" ++ timeframePart timeframe ++ "_"
          ++ keywordsPart keywords).data ++ '_' :: natReprChars now := by
  simp [genConfigId, natRepr]

/-- C9 (amended): two calls of `addSubredditConfig` made at distinct
millisecond timestamps (each below `10 ^ 20`, which covers every
JS-representable integer timestamp) always generate distinct configuration
IDs, whatever their arguments; equality of timestamps and arguments,
however, reproduces the same ID. -/
theorem genConfigId_distinct_timestamps (sub1 sort1 : String)
    (tf1 kw1 : Option String) (sub2 sort2 : String) (tf2 kw2 : Option String)
    (t1 t2 : Nat) (hb1 : t1 < 10 ^ reprFuel) (hb2 : t2 < 10 ^ reprFuel)
    (hne : t1 ≠ t2) :
    genConfigId sub1 sort1 tf1 kw1 t1 ≠ genConfigId sub2 sort2 tf2 kw2 t2 := by
  intro heq
  have hd := congrArg String.data heq
  rw [genConfigId_data, genConfigId_data] at hd
  have := last_segment_eq _ _ _ _ (underscore_not_mem_natReprChars t1)
    (underscore_not_mem_natReprChars t2) hd
  exact hne (natReprChars_inj _ _ hb1 hb2 this)

/-- Counterexample for C9: two calls of `addSubredditConfig` with
identical arguments within the same millisecond generate the same ID, so
the store ends up with a duplicate ID. -/
theorem addSubredditConfig_same_ms_cex :
    (addSubredditConfig [] "cats" "hot" none none 1700000000000).1
      = (addSubredditConfig (addSubredditConfig [] "cats" "hot" none none 1700000000000).2
          "cats" "hot" none none 1700000000000).1
    ∧ ¬ ((addSubredditConfig (addSubredditConfig [] "cats" "hot" none none 1700000000000).2
          "cats" "hot" none none 1700000000000).2.map SubredditConfig.id).Nodup := by
  constructor
  · rfl
  · decide

/-- Witness for C9 (amended): two concrete adjacent timestamps generate
distinct IDs for identical arguments. -/
theorem genConfigId_distinct_timestamps_witness :
    genConfigId "cats" "hot" none none 1700000000000
      ≠ genConfigId "cats" "hot" none none 1700000000001 :=
  genConfigId_distinct_timestamps "cats" "hot" none none "cats" "hot" none none
    1700000000000 1700000000001 (by decide) (by decide) (by decide)

/-! ## String helpers

Executable models of the JS string primitives the client uses
(`includes`, `startsWith`, `endsWith` with `/i` via lowercasing, `split`,
`replace` of a string pattern (first occurrence), global regex replacement
of a literal pattern).  All operate structurally on the character list so
that concrete runs reduce inside the kernel. -/

/-- Does `pat` occur as a contiguous sublist of `l`? (JS `includes`.) -/
def hasSubList (pat : List Char) : List Char → Bool
  | [] => pat.isEmpty
  | c :: rest => pat.isPrefixOf (c :: rest) || hasSubList pat rest

/-- JS `s.includes(pat)`. -/
def strContains (s pat : String) : Bool := hasSubList pat.data s.data

/-- JS `s.startsWith(pat)`. -/
def strStartsWith (s pat : String) : Bool := pat.data.isPrefixOf s.data

/-- JS `s.endsWith(pat)`. -/
def strEndsWith (s pat : String) : Bool := pat.data.isSuffixOf s.data

/-- ASCII lowercasing (JS `toLowerCase` on the ASCII URLs involved). -/
def strLower (s : String) : String := String.mk (s.data.map Char.toLower)

/-- Replace every non-overlapping occurrence of `pat` (leftmost first,
continuing after the replacement), as a JS global regex replace of a
literal pattern; fuel-bounded by the input length. -/
def replaceAllGo (pat rep : List Char) : Nat → List Char → List Char
  | 0, l => l
  | _fuel + 1, [] => []
  | fuel + 1, c :: rest =>
    if !pat.isEmpty && pat.isPrefixOf (c :: rest) then
      rep ++ replaceAllGo pat rep fuel (List.drop pat.length (c :: rest))
    else
      c :: replaceAllGo pat rep fuel rest

/-- JS `s.replace(/pat/g, rep)` for a literal pattern. -/
def strReplaceAll (s pat rep : String) : String :=
  String.mk (replaceAllGo pat.data rep.data s.data.length s.data)

/-- Replace the first occurrence of `pat` (JS `s.replace(pat, rep)` with a
string pattern; replacement-string `$`-escapes do not arise in the inputs
considered and are not modelled). -/
def replaceFirstGo (pat rep : List Char) : List Char → List Char
  | [] => []
  | c :: rest =>
    if pat.isPrefixOf (c :: rest) then rep ++ List.drop pat.length (c :: rest)
    else c :: replaceFirstGo pat rep rest

/-- JS `s.replace(pat, rep)` with a string pattern (first occurrence). -/
def strReplaceFirst (s pat rep : String) : String :=
  String.mk (replaceFirstGo pat.data rep.data s.data)

/-- Split on every occurrence of a (nonempty) separator, JS
`s.split(sep)`; fuel-bounded by the input length. -/
def splitOnGo (sep : List Char) : Nat → List Char → List Char → List (List Char)
  | 0, acc, l => [acc.reverse ++ l]
  | _fuel + 1, acc, [] => [acc.reverse]
  | fuel + 1, acc, c :: rest =>
    if !sep.isEmpty && sep.isPrefixOf (c :: rest) then
      acc.reverse :: splitOnGo sep fuel [] (List.drop sep.length (c :: rest))
    else
      splitOnGo sep fuel (c :: acc) rest

/-- JS `s.split(sep)` for a nonempty string separator. -/
def strSplitOn (s sep : String) : List String :=
  (splitOnGo sep.data (s.data.length + 1) [] s.data).map String.mk

/-- Decode `&amp;` to `&` (the `/&amp;/g` replace applied to URLs). -/
def decodeAmp (s : String) : String := strReplaceAll s "&amp;" "&"

/-- The apostrophe character as a one-character string. -/
def apostropheStr : String := String.mk [Char.ofNat 39]

/-- Decode the five HTML entities handled for oembed markup, in source
order. -/
def decodeHtmlEntities (s : String) : String :=
  strReplaceAll (strReplaceAll (strReplaceAll (strReplaceAll (strReplaceAll
    s "&amp;" "&") "&lt;" "<") "&gt;" ">") "&quot;" "\"") "&#39;" apostropheStr

/-! ## C5/C6: media extraction and thumbnail resolution

`extractMediaInfo(post)` is an ordered priority chain; the first matching
tier returns.  `getValidThumbnail(post)` and `getYouTubeThumbnail(url)`
are the always-attempted thumbnail sub-routines. -/

/-- The oembed metadata carried by an embed result. -/
structure OembedData where
  width : Option Int := none
  height : Option Int := none
  provider_name : Option String := none
  provider_url : Option String := none
deriving DecidableEq

/-- The `videoData` payload of a video result. -/
structure VideoData where
  width : Option Int := none
  height : Option Int := none
  duration : Option Int := none
  hasAudio : Option Bool := none
  dashUrl : Option String := none
  hlsUrl : Option String := none
  fallbackUrl : Option String := none
deriving DecidableEq

/-- The normalized media information returned by `extractMediaInfo`;
fields a tier does not set default to the JS absent value. -/
structure MediaInfo where
  mediaUrl : Option String := none
  mediaType : String := "text"
  thumbnailUrl : Option String := none
  hasOembed : Bool := false
  oembedHtml : Option String := none
  oembedData : Option OembedData := none
  videoData : Option VideoData := none
  galleryData : Option GalleryDataField := none
  mediaMetadata : Option MediaMetadataField := none
deriving DecidableEq

/-- JS numeric truthiness of a possibly-absent number (`0` is falsy). -/
def intTruthy : Option Int → Bool
  | none => false
  | some n => !(n = 0)

/-- JS `a || b` on possibly-absent numbers. -/
def jsOrInt (a b : Option Int) : Option Int := if intTruthy a then a else b

/-- `post.media?.oembed`. -/
def mediaOembed (post : RawPost) : Option OembedInfo :=
  match post.media with
  | some m => m.oembed
  | none => none

/-- `post.media?.reddit_video`. -/
def mediaRedditVideo (post : RawPost) : Option RedditVideo :=
  match post.media with
  | some m => m.reddit_video
  | none => none

/-- `post.secure_media?.reddit_video`. -/
def secureRedditVideo (post : RawPost) : Option RedditVideo :=
  match post.secure_media with
  | some m => m.reddit_video
  | none => none

/-- `post.media?.oembed?.html || post.secure_media_embed?.html`. -/
def oembedHtmlOf (post : RawPost) : Option String :=
  let a := match mediaOembed post with
    | some o => o.html
    | none => none
  let b := match post.secure_media_embed with
    | some e => e.html
    | none => none
  if strTruthy a then a else b

/-- `post?.preview?.images?.[0]?.source?.url` (raw, before decoding). -/
def previewSourceRaw (post : RawPost) : Option String :=
  match post.preview with
  | none => none
  | some pv =>
    match pv.images.head? with
    | none => none
    | some img =>
      match img.source with
      | none => none
      | some src => src.url

/-- `post.preview?.images?.[0]?.resolutions?.[0]?.url` (raw). -/
def previewThumbRaw (post : RawPost) : Option String :=
  match post.preview with
  | none => none
  | some pv =>
    match pv.images.head? with
    | none => none
    | some img =>
      match img.resolutions.head? with
      | none => none
      | some r => r.url

/-- `post.preview?.images?.[0]?.resolutions` (empty when absent). -/
def previewResolutionList (post : RawPost) : List PreviewResolution :=
  match post.preview with
  | none => []
  | some pv =>
    match pv.images.head? with
    | none => []
    | some img => img.resolutions

/-- `url.includes('youtube.com') || url.includes('youtu.be')`. -/
def isYouTubeUrl (u : String) : Bool :=
  strContains u "youtube.com" || strContains u "youtu.be"

/-- `post.url && (youtube.com or youtu.be in it)`, with JS truthiness of
the url. -/
def postUrlIsYouTube (post : RawPost) : Bool :=
  match post.url with
  | some u => if u = "" then false else isYouTubeUrl u
  | none => false

/-- `getYouTubeThumbnail(url)`: extract the video ID from the three known
URL shapes and build the `hqdefault` thumbnail URL; a null (or empty,
hence falsy) ID yields no thumbnail. -/
def getYouTubeThumbnail (url : String) : Option String :=
  let videoId : Option String :=
    if strContains url "youtube.com/watch?v=" then
      match (strSplitOn url "v=").get? 1 with
      | some t => some ((strSplitOn t "&").headD "")
      | none => none
    else if strContains url "youtu.be/" then
      match (strSplitOn url "youtu.be/").get? 1 with
      | some t => some ((strSplitOn t "?").headD "")
      | none => none
    else if strContains url "youtube.com/embed/" then
      match (strSplitOn url "/embed/").get? 1 with
      | some t => some ((strSplitOn t "?").headD "")
      | none => none
    else none
  match videoId with
  | some vid =>
    if vid = "" then none
    else some ("https://img.youtube.com/vi/" ++ vid ++ "/hqdefault.jpg")
  | none => none

/-- The placeholder sentinels rejected by `getValidThumbnail`. -/
def isPlaceholderThumb (t : String) : Bool :=
  t = "self" || t = "default" || t = "nsfw" || t = "spoiler"

/-- `!post.thumbnail || post.thumbnail === 'self' | 'default' | 'nsfw' |
'spoiler'` (JS falsiness: absent or empty string). -/
def thumbnailRejected (post : RawPost) : Bool :=
  match post.thumbnail with
  | none => true
  | some t => t = "" || isPlaceholderThumb t

/-- Whether a resolution's width is in the 320..640 target band
(an absent width compares false in JS). -/
def resWidthInRange (r : PreviewResolution) : Bool :=
  match r.width with
  | some w => decide (320 ≤ w) && decide (w ≤ 640)
  | none => false

/-- `getValidThumbnail(post)`:
YouTube URLs are special-cased first; then missing/placeholder thumbnails
return null immediately; then video posts prefer the preview source;
then an http thumbnail is used as-is; then the preview source; finally a
mid-sized preview resolution. -/
def getValidThumbnail (post : RawPost) : Option String :=
  if postUrlIsYouTube post then getYouTubeThumbnail (post.url.getD "")
  else if thumbnailRejected post then none
  else if boolTruthy post.is_video && strTruthy (previewSourceRaw post) then
    some (decodeAmp ((previewSourceRaw post).getD ""))
  else if (match post.thumbnail with
           | some t => strStartsWith t "http"
           | none => false) then
    post.thumbnail
  else if strTruthy (previewSourceRaw post) then
    some (decodeAmp ((previewSourceRaw post).getD ""))
  else
    let res := previewResolutionList post
    if res.length > 0 then
      let mediumRes : Option PreviewResolution :=
        match res.find? resWidthInRange with
        | some r => some r
        | none => res.get? (res.length / 2)
      match mediumRes with
      | some r =>
        match r.url with
        | some u => if u = "" then none else some (decodeAmp u)
        | none => none
      | none => none
    else none

/-- Tier 0 guard: an oembed html is present (and truthy). -/
def oembedGuard (post : RawPost) : Bool := strTruthy (oembedHtmlOf post)

/-- Tier 0 result: embedded-player content. -/
def oembedResult (post : RawPost) : MediaInfo :=
  { mediaUrl := post.url
    mediaType := "video"
    thumbnailUrl := getValidThumbnail post
    hasOembed := true
    oembedHtml := some (decodeHtmlEntities ((oembedHtmlOf post).getD ""))
    oembedData := some
      { width := jsOrInt ((mediaOembed post).bind OembedInfo.width)
          (post.secure_media_embed.bind MediaEmbedField.width)
        height := jsOrInt ((mediaOembed post).bind OembedInfo.height)
          (post.secure_media_embed.bind MediaEmbedField.height)
        provider_name := (mediaOembed post).bind OembedInfo.provider_name
        provider_url := (mediaOembed post).bind OembedInfo.provider_url } }

/-- Tier 1 guard: `post.is_gallery && post.gallery_data &&
post.media_metadata`. -/
def galleryGuard (post : RawPost) : Bool :=
  boolTruthy post.is_gallery && post.gallery_data.isSome && post.media_metadata.isSome

/-- Tier 1 result: image gallery. -/
def galleryResult (post : RawPost) : MediaInfo :=
  { mediaUrl := none
    mediaType := "gallery"
    thumbnailUrl := getValidThumbnail post
    galleryData := post.gallery_data
    mediaMetadata := post.media_metadata }

/-- Tier 2 guard: `post.is_video && post.media?.reddit_video`. -/
def redditVideoGuard (post : RawPost) : Bool :=
  boolTruthy post.is_video && (mediaRedditVideo post).isSome

/-- Tier 3 guard: `post.secure_media?.reddit_video`. -/
def secureVideoGuard (post : RawPost) : Bool := (secureRedditVideo post).isSome

/-- `getBestVideoUrl`: prefer HLS over DASH over the static fallback over
the post url. -/
def getBestVideoUrl (rv : RedditVideo) (post : RawPost) : Option String :=
  if strTruthy rv.hls_url then rv.hls_url
  else if strTruthy rv.dash_url then rv.dash_url
  else if strTruthy rv.fallback_url then rv.fallback_url
  else post.url

/-- Tiers 2/3 result: native hosted video (or gif-equivalent loop). -/
def videoResult (post : RawPost) (rv : RedditVideo) : MediaInfo :=
  { mediaUrl := getBestVideoUrl rv post
    mediaType := if boolTruthy rv.is_gif then "gif" else "video"
    thumbnailUrl := getValidThumbnail post
    videoData := some
      { width := rv.width
        height := rv.height
        duration := rv.duration
        hasAudio := rv.has_audio
        dashUrl := rv.dash_url
        hlsUrl := rv.hls_url
        fallbackUrl := rv.fallback_url } }

/-- Case-insensitive direct image extensions. -/
def isImageExt (u : String) : Bool :=
  strEndsWith (strLower u) ".jpg" || strEndsWith (strLower u) ".jpeg"
    || strEndsWith (strLower u) ".png" || strEndsWith (strLower u) ".webp"

/-- Case-insensitive gif extension. -/
def isGifExt (u : String) : Bool := strEndsWith (strLower u) ".gif"

/-- Case-insensitive direct video extensions. -/
def isVideoExt (u : String) : Bool :=
  strEndsWith (strLower u) ".mp4" || strEndsWith (strLower u) ".webm"
    || strEndsWith (strLower u) ".mov"

/-- The imgur handling of tier 4: albums are guessed as a direct
single-image URL with `.jpg` injection; bare links get a direct-image
rewrite; gif/mp4 markers adjust the media type. -/
def imgurResult (u : String) (post : RawPost) : MediaInfo :=
  let directUrl1 :=
    if strContains u "/gallery/" || strContains u "/a/" then
      "https://i.imgur.com/" ++ (strSplitOn u "/").getLastD "" ++ ".jpg"
    else if !(strContains u ".jpg") && !(strContains u ".png")
        && !(strContains u ".gif") && !(strContains u ".mp4") then
      strReplaceFirst u "imgur.com/" "i.imgur.com/" ++ ".jpg"
    else u
  if strContains u ".gif" || strContains u "gifv" then
    { mediaUrl := some (strReplaceFirst directUrl1 ".gifv" ".gif")
      mediaType := "gif"
      thumbnailUrl := getValidThumbnail post }
  else if strContains u ".mp4" then
    { mediaUrl := some directUrl1
      mediaType := "video"
      thumbnailUrl := getValidThumbnail post }
  else
    { mediaUrl := some directUrl1
      mediaType := "image"
      thumbnailUrl := getValidThumbnail post }

/-- Tier 4: classify a direct external URL; `none` means no pattern
matched and control falls through to the preview tier. -/
def classifyUrl (u : String) (post : RawPost) : Option MediaInfo :=
  if strContains u "i.redd.it" then
    some { mediaUrl := some u, mediaType := "image", thumbnailUrl := getValidThumbnail post }
  else if strContains u "v.redd.it" then
    some { mediaUrl := some u, mediaType := "video", thumbnailUrl := getValidThumbnail post }
  else if strContains u "imgur.com" then
    some (imgurResult u post)
  else if isImageExt u then
    some { mediaUrl := some u, mediaType := "image", thumbnailUrl := getValidThumbnail post }
  else if isGifExt u then
    some { mediaUrl := some u, mediaType := "gif", thumbnailUrl := getValidThumbnail post }
  else if isVideoExt u then
    some { mediaUrl := some u, mediaType := "video", thumbnailUrl := getValidThumbnail post }
  else if isYouTubeUrl u then
    some { mediaUrl := some u, mediaType := "video", thumbnailUrl := getValidThumbnail post }
  else if strContains u "streamable.com" || strContains u "gfycat.com"
      || strContains u "redgifs.com" then
    some { mediaUrl := some u, mediaType := "video", thumbnailUrl := getValidThumbnail post }
  else none

/-- Tier 4 with the `if (post.url)` truthiness guard. -/
def urlTierOf (post : RawPost) : Option MediaInfo :=
  match post.url with
  | some u => if u = "" then none else classifyUrl u post
  | none => none

/-- Tier 5 guard: a preview image with a truthy (decoded) source URL. -/
def previewGuard (post : RawPost) : Bool :=
  strTruthy ((previewSourceRaw post).map decodeAmp)

/-- Tier 5 result: preview image, with entity-decoded URLs. -/
def previewResult (post : RawPost) : MediaInfo :=
  { mediaUrl := some (decodeAmp ((previewSourceRaw post).getD ""))
    mediaType := "image"
    thumbnailUrl :=
      match previewThumbRaw post with
      | some tu => if tu = "" then getValidThumbnail post else some (decodeAmp tu)
      | none => getValidThumbnail post }

/-- `extractMediaInfo(post)`: the ordered priority chain; the first
matching tier wins, terminating at the text default. -/
def extractMediaInfo (post : RawPost) : MediaInfo :=
  if oembedGuard post then oembedResult post
  else if galleryGuard post then galleryResult post
  else if redditVideoGuard post then videoResult post ((mediaRedditVideo post).getD {})
  else if secureVideoGuard post then videoResult post ((secureRedditVideo post).getD {})
  else
    match urlTierOf post with
    | some mi => mi
    | none =>
      if previewGuard post then previewResult post
      else { mediaUrl := none, mediaType := "text", thumbnailUrl := getValidThumbnail post }

/-- Whether any non-default tier of `extractMediaInfo` matches. -/
def mediaTierMatches (post : RawPost) : Bool :=
  oembedGuard post || galleryGuard post || redditVideoGuard post || secureVideoGuard post
    || (urlTierOf post).isSome || previewGuard post

theorem imgurResult_mediaType (u : String) (post : RawPost) :
    (imgurResult u post).mediaType
      ∈ (["image", "gif", "video", "gallery", "text"] : List String) := by
  unfold imgurResult
  split_ifs <;> simp

theorem classifyUrl_mediaType (u : String) (post : RawPost) (mi : MediaInfo)
    (h : classifyUrl u post = some mi) :
    mi.mediaType ∈ (["image", "gif", "video", "gallery", "text"] : List String) := by
  unfold classifyUrl at h
  split_ifs at h <;>
    first
      | (injection h with h; rw [← h]; exact imgurResult_mediaType u post)
      | (injection h with h; rw [← h]; simp)

theorem urlTierOf_mediaType (post : RawPost) (mi : MediaInfo)
    (h : urlTierOf post = some mi) :
    mi.mediaType ∈ (["image", "gif", "video", "gallery", "text"] : List String) := by
  unfold urlTierOf at h
  cases hu : post.url with
  | none => rw [hu] at h; simp at h
  | some u =>
    simp only [hu] at h
    by_cases he : u = ""
    · rw [if_pos he] at h; simp at h
    · rw [if_neg he] at h
      exact classifyUrl_mediaType u post mi h

/-- C5: for every raw post record, `extractMediaInfo` terminates with a
result (never throwing: the embedding is a total function, every absent or
malformed field having been absorbed by the guards), its `mediaType` is
one of the recognized kinds, and when no priority tier matches the result
is the text default with a null `mediaUrl`. -/
theorem extractMediaInfo_total_and_default (post : RawPost) :
    (extractMediaInfo post).mediaType
      ∈ (["image", "gif", "video", "gallery", "text"] : List String)
    ∧ (mediaTierMatches post = false →
        extractMediaInfo post
          = { mediaUrl := none, mediaType := "text",
              thumbnailUrl := getValidThumbnail post }) := by
  constructor
  · unfold extractMediaInfo
    split_ifs with h1 h2 h3 h4 h5
    · simp [oembedResult]
    · simp [galleryResult]
    · unfold videoResult; split_ifs <;> simp
    · unfold videoResult; split_ifs <;> simp
    · cases hu : urlTierOf post with
      | some mi => exact urlTierOf_mediaType post mi hu
      | none => simp [previewResult]
    · cases hu : urlTierOf post with
      | some mi => exact urlTierOf_mediaType post mi hu
      | none => simp
  · intro h
    unfold mediaTierMatches at h
    simp only [Bool.or_eq_false_iff] at h
    obtain ⟨⟨⟨⟨⟨h1, h2⟩, h3⟩, h4⟩, h5⟩, h6⟩ := h
    have hu : urlTierOf post = none := by
      revert h5
      cases urlTierOf post with
      | none => intro _; rfl
      | some mi => intro h5; simp at h5
    simp [extractMediaInfo, h1, h2, h3, h4, hu, h6]

/-- Witness for C5: the all-absent raw post matches no tier and extracts
to the text default. -/
theorem extractMediaInfo_total_and_default_witness :
    extractMediaInfo {}
      = { mediaUrl := none, mediaType := "text", thumbnailUrl := getValidThumbnail {} } :=
  (extractMediaInfo_total_and_default {}).2 (by decide)

/-- A raw post with a placeholder thumbnail and a usable preview source. -/
def placeholderPreviewPost : RawPost :=
  { thumbnail := some "self"
    preview := some
      { images := [{ source := some { url := some "https://example.com/img.png" } }] } }

/-- Counterexample for C6: a raw post with `thumbnail: "self"` and a
usable preview source; the claim predicts the preview source URL is used,
but `getValidThumbnail` returns null before ever inspecting the preview. -/
theorem getValidThumbnail_placeholder_cex :
    previewSourceRaw placeholderPreviewPost = some "https://example.com/img.png"
    ∧ getValidThumbnail placeholderPreviewPost = none := by
  constructor
  · rfl
  · decide

/-- C6 (amended): for every raw post whose thumbnail is one of the
placeholder strings `self`/`default`/`nsfw`/`spoiler` and whose url is not
a recognized YouTube URL, `getValidThumbnail` returns null unconditionally
(even when a usable preview/source exists); for recognized YouTube URLs a
thumbnail is instead derived from the video ID by `getYouTubeThumbnail`
(null when no ID can be extracted). -/
theorem getValidThumbnail_placeholder_amended (post : RawPost) :
    (post.thumbnail ∈ [some "self", some "default", some "nsfw", some "spoiler"] →
      postUrlIsYouTube post = false →
      getValidThumbnail post = none)
    ∧ (postUrlIsYouTube post = true →
      getValidThumbnail post = getYouTubeThumbnail (post.url.getD "")) := by
  constructor
  · intro hthumb hyt
    have hrej : thumbnailRejected post = true := by
      simp only [List.mem_cons, List.not_mem_nil, or_false] at hthumb
      rcases hthumb with h | h | h | h <;> simp [thumbnailRejected, h, isPlaceholderThumb]
    simp [getValidThumbnail, hyt, hrej]
  · intro hyt
    simp [getValidThumbnail, hyt]

/-- Witness for C6 (amended): a placeholder thumbnail on a non-YouTube
post yields null; a YouTube post defers to the derived video thumbnail. -/
theorem getValidThumbnail_placeholder_amended_witness :
    getValidThumbnail { thumbnail := some "default" } = none
    ∧ getValidThumbnail { url := some "https://youtu.be/abc", thumbnail := some "self" }
        = getYouTubeThumbnail "https://youtu.be/abc" :=
  ⟨(getValidThumbnail_placeholder_amended { thumbnail := some "default" }).1
      (by decide) (by decide),
   (getValidThumbnail_placeholder_amended
      { url := some "https://youtu.be/abc", thumbnail := some "self" }).2 (by decide)⟩

/-! ## QueryParser: `parseKeywordQuery` and `validateQuery`

The parser is a pipeline of regex replaces and splits over the input
string.  Each regex of the source is modelled by a dedicated scanner with
JS semantics: leftmost match, greedy whitespace quantifiers (which never
need backtracking here, as no operator character is whitespace), global
replacement continuing after the replaced segment.  Scanners are
fuel-bounded by the input length so that concrete runs reduce in the
kernel; one fuel unit is spent per input position and every step consumes
at least one character, so the fuel never runs out. -/

/-- JS `\s` on the ASCII range (space, tab, newline, carriage return,
vertical tab, form feed). -/
def isJsSpace (c : Char) : Bool :=
  c = ' ' || c = '\t' || c = '\n' || c = '\r' || c = Char.ofNat 11 || c = Char.ofNat 12

/-- JS `String.prototype.trim`. -/
def trimChars (l : List Char) : List Char :=
  ((l.dropWhile isJsSpace).reverse.dropWhile isJsSpace).reverse

/-- `replace(/\s+/g, ' ')`: collapse whitespace runs to single spaces. -/
def collapseWsGo : Nat → List Char → List Char
  | 0, l => l
  | _fuel + 1, [] => []
  | fuel + 1, c :: rest =>
    if isJsSpace c then ' ' :: collapseWsGo fuel (rest.dropWhile isJsSpace)
    else c :: collapseWsGo fuel rest

/-- The `__QUOTE_<i>__` placeholder. -/
def placeholderChars (i : Nat) : List Char :=
  "__QUOTE_".data ++ natReprChars i ++ "__".data

/-- `replace(/"([^"]+)"/g, ...)`: extract quoted phrases to placeholders,
collecting the phrases (quotes included) in order.  A quote with empty
content or without a closing quote does not match and scanning continues
at the next character. -/
def extractQuotesGo : Nat → List Char → Nat → List (List Char) →
    List Char × List (List Char)
  | 0, l, _, accPhrases => (l, accPhrases)
  | _fuel + 1, [], _, accPhrases => ([], accPhrases)
  | fuel + 1, c :: rest, cnt, accPhrases =>
    if c = '"' then
      let content := rest.takeWhile (fun x => !(x = '"'))
      match content, rest.drop content.length with
      | _ :: _, '"' :: after =>
        let out := extractQuotesGo fuel after (cnt + 1)
          (accPhrases ++ [('"' :: content) ++ ['"']])
        (placeholderChars cnt ++ out.1, out.2)
      | _, _ =>
        let out := extractQuotesGo fuel rest cnt accPhrases
        (c :: out.1, out.2)
    else
      let out := extractQuotesGo fuel rest cnt accPhrases
      (c :: out.1, out.2)

/-- `replace(/\s+<op>\s+/gi, rep)`: normalize one boolean operator.
`op` is given lowercase; matching is case-insensitive on the operator and
greedy on the whitespace. -/
def replaceOpNormGo (op rep : List Char) : Nat → List Char → List Char
  | 0, l => l
  | _fuel + 1, [] => []
  | fuel + 1, c :: rest =>
    if isJsSpace c then
      let ws1 := (c :: rest).takeWhile isJsSpace
      let after1 := (c :: rest).drop ws1.length
      if ((after1.take op.length).map Char.toLower) == op then
        let after2 := after1.drop op.length
        let ws2 := after2.takeWhile isJsSpace
        if ws2.isEmpty then c :: replaceOpNormGo op rep fuel rest
        else rep ++ replaceOpNormGo op rep fuel (after2.drop ws2.length)
      else c :: replaceOpNormGo op rep fuel rest
    else c :: replaceOpNormGo op rep fuel rest

/-- The uppercase operator alternatives of the split separator, in
alternation order. -/
def opAlts : List (List Char) := [['A', 'N', 'D'], ['O', 'R'], ['N', 'O', 'T']]

/-- Try the `\s+(?:AND|OR|NOT)\s+` separator alternative at the head of
`l`; on success return the matched separator and the remainder. -/
def tryOpSep (l : List Char) : Option (List Char × List Char) :=
  let ws1 := l.takeWhile isJsSpace
  if ws1.isEmpty then none
  else
    let after1 := l.drop ws1.length
    let tryOne := fun (op : List Char) =>
      if op.isPrefixOf after1 then
        let after2 := after1.drop op.length
        let ws2 := after2.takeWhile isJsSpace
        if ws2.isEmpty then none
        else some (ws1 ++ op ++ ws2, after2.drop ws2.length)
      else none
    match tryOne ['A', 'N', 'D'] with
    | some r => some r
    | none =>
      match tryOne ['O', 'R'] with
      | some r => some r
      | none => tryOne ['N', 'O', 'T']

/-- `split(/(\s+(?:AND|OR|NOT)\s+|\(|\))/)`: split keeping the captured
separators (JS split with a capture group). -/
def splitPartsGo : Nat → List Char → List Char → List (List Char)
  | 0, acc, l => [acc.reverse ++ l]
  | _fuel + 1, acc, [] => [acc.reverse]
  | fuel + 1, acc, c :: rest =>
    if c = '(' || c = ')' then
      acc.reverse :: [c] :: splitPartsGo fuel [] rest
    else
      match tryOpSep (c :: rest) with
      | some r => acc.reverse :: r.1 :: splitPartsGo fuel [] r.2
      | none => splitPartsGo fuel (c :: acc) rest

/-- Split the normalized query into parts and separators. -/
def splitParts (l : List Char) : List (List Char) :=
  splitPartsGo (l.length + 1) [] l

/-- The `/^(AND|OR|NOT|\(|\))$/` test on a trimmed part. -/
def isOpToken (t : List Char) : Bool :=
  t == ['A', 'N', 'D'] || t == ['O', 'R'] || t == ['N', 'O', 'T']
    || t == ['('] || t == [')']

/-- `split(/\s+/)` on a trimmed part. -/
def wsSplitGo : Nat → List Char → List (List Char)
  | 0, _ => []
  | _fuel + 1, [] => []
  | fuel + 1, l =>
    let piece := l.takeWhile (fun c => !isJsSpace c)
    let rest := (l.drop piece.length).dropWhile isJsSpace
    piece :: wsSplitGo fuel rest

/-- Split a trimmed part into its whitespace-separated terms. -/
def wsSplit (l : List Char) : List (List Char) := wsSplitGo (l.length + 1) l

/-- Process one split part: operators/parens/empties pass through, and a
multi-term part gets its terms joined with explicit `AND`. -/
def processPart (part : List Char) : List Char :=
  let trimmed := trimChars part
  if trimmed.isEmpty then trimmed
  else if isOpToken trimmed then trimmed
  else
    let terms := wsSplit trimmed
    if terms.length > 1 then List.intercalate " AND ".data terms
    else trimmed

/-- `replace(/\s*\(\s*/g, '(')` (and the mirror for `)`): tighten spaces
around a parenthesis. -/
def parenCleanGo (paren : Char) : Nat → List Char → List Char
  | 0, l => l
  | _fuel + 1, [] => []
  | fuel + 1, c :: rest =>
    if c = paren then paren :: parenCleanGo paren fuel (rest.dropWhile isJsSpace)
    else if isJsSpace c then
      let ws1 := (c :: rest).takeWhile isJsSpace
      match (c :: rest).drop ws1.length with
      | p :: after2 =>
        if p = paren then paren :: parenCleanGo paren fuel (after2.dropWhile isJsSpace)
        else c :: parenCleanGo paren fuel rest
      | [] => c :: parenCleanGo paren fuel rest
    else c :: parenCleanGo paren fuel rest

/-- `replace(/\s*(AND|OR|NOT)\s*/g, ' $1 ')`: re-space the (uppercase,
case-sensitively matched) operators.  Note the regex has no word
boundaries, so an operator substring inside a longer word also matches. -/
def opSpaceGo : Nat → List Char → List Char
  | 0, l => l
  | _fuel + 1, [] => []
  | fuel + 1, c :: rest =>
    let l := c :: rest
    let ws1 := l.takeWhile isJsSpace
    let after1 := l.drop ws1.length
    let opMatch :=
      match (if (['A', 'N', 'D'] : List Char).isPrefixOf after1
             then some (['A', 'N', 'D'] : List Char) else none) with
      | some op => some op
      | none =>
        match (if (['O', 'R'] : List Char).isPrefixOf after1
               then some (['O', 'R'] : List Char) else none) with
        | some op => some op
        | none =>
          if (['N', 'O', 'T'] : List Char).isPrefixOf after1
          then some (['N', 'O', 'T'] : List Char) else none
    match opMatch with
    | some op =>
      let after2 := after1.drop op.length
      let ws2 := after2.takeWhile isJsSpace
      ' ' :: (op ++ (' ' :: opSpaceGo fuel (after2.drop ws2.length)))
    | none => c :: opSpaceGo fuel rest

/-- Restore the quoted phrases into their placeholders, first occurrence
each, in index order. -/
def restoreQuotesGo : List Char → Nat → List (List Char) → List Char
  | l, _, [] => l
  | l, i, ph :: rest => restoreQuotesGo (replaceFirstGo (placeholderChars i) ph l) (i + 1) rest

/-- `parseKeywordQuery(userInput)`: the full normalization pipeline. -/
def parseKeywordQuery (userInput : String) : String :=
  let q1 := trimChars userInput.data
  let q2 := collapseWsGo (q1.length + 1) q1
  if q2.isEmpty then ""
  else
    let eq := extractQuotesGo (q2.length + 1) q2 0 []
    let q3 := eq.1
    let q4 := replaceOpNormGo ['a', 'n', 'd'] " AND ".data (q3.length + 1) q3
    let q5 := replaceOpNormGo ['o', 'r'] " OR ".data (q4.length + 1) q4
    let q6 := replaceOpNormGo ['n', 'o', 't'] " NOT ".data (q5.length + 1) q5
    let q7 := ((splitParts q6).map processPart).flatten
    let q8 := collapseWsGo (q7.length + 1) q7
    let q9 := parenCleanGo '(' (q8.length + 1) q8
    let q10 := parenCleanGo ')' (q9.length + 1) q9
    let q11 := opSpaceGo (q10.length + 1) q10
    let q12 := restoreQuotesGo q11 0 eq.2
    String.mk (trimChars q12)

/-- JS `\w`. -/
def isWordChar (c : Char) : Bool := c.isAlpha || c.isDigit || c = '_'

/-- Case-insensitive operator prefix test (`op` given lowercase). -/
def matchOpCI (op : List Char) (l : List Char) : Bool :=
  ((l.take op.length).map Char.toLower) == op

/-- The lowercase operator alternatives. -/
def opAltsCI : List (List Char) := [['a', 'n', 'd'], ['o', 'r'], ['n', 'o', 't']]

/-- The running parenthesis counter of `validateQuery`, failing inside the
loop on a negative count and after it on a positive one. -/
def parenScan : Int → List Char → Option String
  | n, [] => if n > 0 then some "Unmatched opening parenthesis" else none
  | n, c :: rest =>
    let n' := if c = '(' then n + 1 else if c = ')' then n - 1 else n
    if n' < 0 then some "Unmatched closing parenthesis" else parenScan n' rest

/-- The `/\b(AND|OR|NOT)\s+(AND|OR|NOT)\b/i` body at the current
position. -/
def adjacentAt (l : List Char) : Bool :=
  opAltsCI.any (fun op1 =>
    matchOpCI op1 l &&
      (let after1 := l.drop op1.length
       let ws := after1.takeWhile isJsSpace
       !ws.isEmpty &&
         (let rest2 := after1.drop ws.length
          opAltsCI.any (fun op2 =>
            matchOpCI op2 rest2 &&
              (match (rest2.drop op2.length).head? with
               | none => true
               | some c => !isWordChar c)))))

/-- Scan for an adjacent-operator pair; the leading `\b` holds when the
previous character is absent or a non-word character (the alternatives all
start with a word character). -/
def hasAdjacentOpsGo : Option Char → List Char → Bool
  | _, [] => false
  | prev, c :: rest =>
    ((match prev with
      | none => true
      | some p => !isWordChar p) && adjacentAt (c :: rest))
      || hasAdjacentOpsGo (some c) rest

/-- Test of `/\b(AND|OR|NOT)\s+(AND|OR|NOT)\b/i`. -/
def hasAdjacentOps (l : List Char) : Bool := hasAdjacentOpsGo none l

/-- Test of `/^(AND|OR)\b/i`. -/
def startsWithAndOr (l : List Char) : Bool :=
  [(['a', 'n', 'd'] : List Char), ['o', 'r']].any (fun op =>
    matchOpCI op l &&
      (match (l.drop op.length).head? with
       | none => true
       | some c => !isWordChar c))

/-- Test of `/\b(AND|OR|NOT)$/i`. -/
def endsWithOp (l : List Char) : Bool :=
  let r := l.reverse
  opAltsCI.any (fun op =>
    ((r.take op.length).map Char.toLower) == op.reverse &&
      (match (r.drop op.length).head? with
       | none => true
       | some c => !isWordChar c))

/-- Test of `/\(\s*\)/`. -/
def hasEmptyParens : List Char → Bool
  | [] => false
  | '(' :: rest => ((rest.dropWhile isJsSpace).head? == some ')') || hasEmptyParens rest
  | _ :: rest => hasEmptyParens rest

/-- Test of `/\(\s*(AND|OR)\b/i`. -/
def parenThenOp : List Char → Bool
  | [] => false
  | '(' :: rest =>
    (let after := rest.dropWhile isJsSpace
     [(['a', 'n', 'd'] : List Char), ['o', 'r']].any (fun op =>
       matchOpCI op after &&
         (match (after.drop op.length).head? with
          | none => true
          | some c => !isWordChar c)))
      || parenThenOp rest
  | _ :: rest => parenThenOp rest

/-- The result record of `validateQuery`. -/
structure ValidationResult where
  isValid : Bool
  error : Option String
deriving DecidableEq

/-- `validateQuery(query)`: the ordered syntax checks, each with its
distinct error message. -/
def validateQuery (query : String) : ValidationResult :=
  let t := trimChars query.data
  if query.data.isEmpty || t.isEmpty then
    { isValid := false, error := some "Query cannot be empty" }
  else
    match parenScan 0 t with
    | some err => { isValid := false, error := some err }
    | none =>
      if hasAdjacentOps t then
        { isValid := false, error := some "Invalid operator sequence (e.g., \"AND OR\")" }
      else if startsWithAndOr t then
        { isValid := false, error := some "Query cannot start with AND or OR" }
      else if endsWithOp t then
        { isValid := false, error := some "Query cannot end with an operator" }
      else if hasEmptyParens t then
        { isValid := false, error := some "Empty parentheses are not allowed" }
      else if parenThenOp t then
        { isValid := false, error := some "Parentheses cannot start with AND or OR" }
      else { isValid := true, error := none }

/-- One documented example of `getQueryExamples`. -/
structure QueryExample where
  input : String
  output : String
deriving DecidableEq

/-- The documented example queries of the query parser module (inputs and
expected outputs; the prose descriptions are omitted). -/
def getQueryExamples : List QueryExample :=
  [ { input := "cats dogs", output := "cats AND dogs" },
    { input := "cats OR dogs", output := "cats OR dogs" },
    { input := "cats NOT dogs", output := "cats NOT dogs" },
    { input := "(cats OR dogs) AND funny", output := "(cats OR dogs) AND funny" },
    { input := "\"cute cats\" OR \"funny dogs\"", output := "\"cute cats\" OR \"funny dogs\"" },
    { input := "programming javascript react",
      output := "programming AND javascript AND react" } ]

/-- C8: `validateQuery` rejects `"AND cats"` (leading operator),
`"cats AND"` (trailing operator), `"cats AND OR dogs"` (adjacent
operators), `"(cats"` (unbalanced parenthesis) and `"()"` (empty group),
each with `isValid` false and a non-null error message. -/
theorem validateQuery_rejects_examples :
    ((validateQuery "AND cats").isValid = false
      ∧ (validateQuery "AND cats").error = some "Query cannot start with AND or OR")
    ∧ ((validateQuery "cats AND").isValid = false
      ∧ (validateQuery "cats AND").error = some "Query cannot end with an operator")
    ∧ ((validateQuery "cats AND OR dogs").isValid = false
      ∧ (validateQuery "cats AND OR dogs").error
          = some "Invalid operator sequence (e.g., \"AND OR\")")
    ∧ ((validateQuery "(cats").isValid = false
      ∧ (validateQuery "(cats").error = some "Unmatched opening parenthesis")
    ∧ ((validateQuery "()").isValid = false
      ∧ (validateQuery "()").error = some "Empty parentheses are not allowed") := by
  decide

/-- Counterexample for C4: the input `"ANDROID"` is accepted by
`validateQuery` (the word-boundary checks do not fire inside a word), yet
`parseKeywordQuery` is not idempotent on it: the operator-respacing regex
`/\s*(AND|OR|NOT)\s*/g` has no word boundaries, so the first parse splits
the word into `"AND ROID"`, and the second parse then treats `ROID` as a
second term of an explicit `AND` expression, producing
`"AND  AND ROID"`. -/
theorem parseKeywordQuery_not_idempotent_cex :
    (validateQuery "ANDROID").isValid = true
    ∧ parseKeywordQuery "ANDROID" = "AND ROID"
    ∧ parseKeywordQuery (parseKeywordQuery "ANDROID") = "AND  AND ROID"
    ∧ parseKeywordQuery (parseKeywordQuery "ANDROID") ≠ parseKeywordQuery "ANDROID" := by
  decide

/-- C4 (amended): `parseKeywordQuery` is not idempotent on every
`validateQuery`-accepted input (see the counterexample `"ANDROID"`), but
it is idempotent — and produces the documented output — on each of the six
example queries of `getQueryExamples`, all of which `validateQuery`
accepts. -/
theorem parseKeywordQuery_idempotent_on_examples :
    getQueryExamples.all (fun ex =>
      (validateQuery ex.input).isValid
        && parseKeywordQuery ex.input == ex.output
        && parseKeywordQuery (parseKeywordQuery ex.input) == parseKeywordQuery ex.input)
      = true := by
  decide

end RedditVisor
